import Mathlib

/-!
Verification development for the DJITelloPy control-plane library
(src/djitellopy/tello.py, swarm.py, communication.py).

The Python source is shallowly embedded: pure fragments become Lean
functions, stateful fragments become explicit state-passing functions,
raw datagram payloads are lists of byte values, and the raising paths
become `Except` / explicit error fields.  Machine floats only occur as
*parse results* of the telemetry converter; they are kept as an exact
mantissa/exponent representation since the library never computes with
them on the paths under study.
-/

namespace DJITello

/-! ## String primitives (models of the Python `str` operations used) -/

/-- Model of the whitespace class used by Python `str.strip()` (ASCII part). -/
def pyIsSpace (c : Char) : Bool :=
  c == ' ' || c == '\t' || c == '\n' || c == '\r' || c == '\x0b' || c == '\x0c'

/-- Model of Python `str.strip()` with no argument. -/
def pyStrip (s : String) : String :=
  String.mk (((s.toList.dropWhile pyIsSpace).reverse.dropWhile pyIsSpace).reverse)

/-- Split a character list at every occurrence of `sep`
(the accumulator holds the current segment, reversed). -/
def splitSegsAux (sep : Char) : List Char → List Char → List (List Char)
  | [], acc => [acc.reverse]
  | c :: cs, acc =>
    if c == sep then acc.reverse :: splitSegsAux sep cs []
    else splitSegsAux sep cs (c :: acc)

/-- Model of Python `str.split(sep)` for a one-character separator:
`"a;b;".split(";") == ["a","b",""]` and `"".split(";") == [""]`. -/
def splitOnChar (sep : Char) (s : String) : List String :=
  (splitSegsAux sep s.toList []).map String.mk

/-- Model of Python `str.lower()` (ASCII case folding suffices here). -/
def lowerStr (s : String) : String :=
  String.mk (s.toList.map Char.toLower)

/-- `startsWithList pat s` is true when `pat` is an initial segment of `s`. -/
def startsWithList : List Char → List Char → Bool
  | [], _ => true
  | _ :: _, [] => false
  | p :: ps, c :: cs => p == c && startsWithList ps cs

/-- `containsSeq pat s` is true when `pat` occurs contiguously inside `s`
(model of the Python `in` operator on strings). -/
def containsSeq (pat : List Char) : List Char → Bool
  | [] => pat.isEmpty
  | c :: cs => startsWithList pat (c :: cs) || containsSeq pat cs

/-- Model of the Python test `'ok' in s.lower()`. -/
def containsOk (s : String) : Bool :=
  containsSeq ['o', 'k'] (lowerStr s).toList

/-- Model of Python `str.rstrip("\r\n")`: drop trailing CR and LF characters. -/
def rstripCRLF (s : String) : String :=
  String.mk ((s.toList.reverse.dropWhile (fun c => c == '\r' || c == '\n')).reverse)

/-! ## Models of the Python numeric constructors `int(str)` and `float(str)` -/

/-- After the first digit, Python digit strings are digits with single
underscores allowed between digits (`"1_0"` is legal, `"1__0"`, `"1_"` are not). -/
def pyDigitsRest : List Char → Bool
  | [] => true
  | '_' :: c :: cs => c.isDigit && pyDigitsRest cs
  | c :: cs => c.isDigit && pyDigitsRest cs

/-- A legal Python digit group: nonempty, starts with a digit,
underscores only between digits. -/
def pyDigitsOk : List Char → Bool
  | [] => false
  | c :: cs => c.isDigit && pyDigitsRest cs

/-- Numeric value of a digit group, skipping underscores. -/
def digitsVal : List Char → Nat → Nat
  | [], acc => acc
  | '_' :: cs, acc => digitsVal cs acc
  | c :: cs, acc => digitsVal cs (acc * 10 + (c.toNat - '0'.toNat))

/-- Sign-and-digits parser shared by `int(str)` and float exponents. -/
def pyIntOfChars : List Char → Option Int
  | '+' :: cs => if pyDigitsOk cs then some (Int.ofNat (digitsVal cs 0)) else none
  | '-' :: cs => if pyDigitsOk cs then some (-(Int.ofNat (digitsVal cs 0))) else none
  | cs => if pyDigitsOk cs then some (Int.ofNat (digitsVal cs 0)) else none

/-- Model of Python `int(str)`: optional surrounding whitespace, optional
sign, then a legal digit group; raises `ValueError` (here: `none`) otherwise. -/
def pyInt (s : String) : Option Int :=
  pyIntOfChars (pyStrip s).toList

/-- Exact representation of the values Python `float(str)` can produce on the
telemetry path: a finite decimal `mantissa * 10 ^ exp10`, an infinity, or NaN.
The library stores these values and never computes with them. -/
inductive PyFloat where
  | finite (mantissa : Int) (exp10 : Int)
  | infinite (neg : Bool)
  | nan
deriving DecidableEq

/-- Count actual digit characters (underscores excluded). -/
def countDigits (cs : List Char) : Nat :=
  (cs.filter Char.isDigit).length

/-- Parse the mantissa part of a float literal (no sign, no exponent):
`D`, `D.`, `.D` or `D.D` where `D` is a legal digit group.
Returns the combined digits as a natural number together with the
power-of-ten shift contributed by the fractional part. -/
def pyFloatMantissa (cs : List Char) : Option (Nat × Int) :=
  match splitSegsAux '.' cs [] with
  | [whole] =>
    if pyDigitsOk whole then some (digitsVal whole 0, 0) else none
  | [intPart, fracPart] =>
    if (intPart.isEmpty || pyDigitsOk intPart)
        && (fracPart.isEmpty || pyDigitsOk fracPart)
        && !(intPart.isEmpty && fracPart.isEmpty) then
      some (digitsVal fracPart (digitsVal intPart 0), -(Int.ofNat (countDigits fracPart)))
    else none
  | _ => none

/-- Parse a float literal body (sign already removed). -/
def pyFloatBody (neg : Bool) (cs : List Char) : Option PyFloat :=
  let low := cs.map Char.toLower
  if low == ['i', 'n', 'f'] || low == ['i', 'n', 'f', 'i', 'n', 'i', 't', 'y'] then
    some (.infinite neg)
  else if low == ['n', 'a', 'n'] then
    some .nan
  else
    match splitSegsAux 'e' low [] with
    | [mant] =>
      (pyFloatMantissa mant).map fun m =>
        .finite (if neg then -(Int.ofNat m.1) else Int.ofNat m.1) m.2
    | [mant, ex] =>
      match pyFloatMantissa mant, pyIntOfChars ex with
      | some m, some e =>
        some (.finite (if neg then -(Int.ofNat m.1) else Int.ofNat m.1) (m.2 + e))
      | _, _ => none
    | _ => none

/-- Model of Python `float(str)`: optional surrounding whitespace, optional
sign, then `inf`/`infinity`/`nan` (case-insensitive) or a decimal literal
with optional exponent. -/
def pyFloat (s : String) : Option PyFloat :=
  match (pyStrip s).toList with
  | '+' :: cs => pyFloatBody false cs
  | '-' :: cs => pyFloatBody true cs
  | cs => pyFloatBody false cs

/-! ## The telemetry parser `Tello.parse_state` -/

/-- `Tello.INT_STATE_FIELDS` (tello.py). -/
def INT_STATE_FIELDS : List String :=
  ["mid", "x", "y", "z", "pitch", "roll", "yaw",
   "vgx", "vgy", "vgz", "templ", "temph", "tof", "h", "bat", "time"]

/-- `Tello.FLOAT_STATE_FIELDS` (tello.py). -/
def FLOAT_STATE_FIELDS : List String :=
  ["baro", "agx", "agy", "agz"]

/-- The two converter kinds appearing in `Tello.state_field_converters`. -/
inductive FieldType where
  | intField
  | floatField
deriving DecidableEq

/-- `Tello.state_field_converters` as a lookup: `int` for the integer fields,
`float` for the float fields, absent otherwise. -/
def state_field_converters (key : String) : Option FieldType :=
  if INT_STATE_FIELDS.contains key then some .intField
  else if FLOAT_STATE_FIELDS.contains key then some .floatField
  else none

/-- A value stored in the parsed state dictionary. -/
inductive StateValue where
  | intVal (i : Int)
  | floatVal (f : PyFloat)
  | strVal (s : String)
deriving DecidableEq

/-- The Python `dict` is modelled as an association list in insertion order. -/
abbrev StateDict := List (String × StateValue)

/-- Python `d[k] = v`: overwrite in place if the key exists, else append
(Python dicts keep the original position of an overwritten key). -/
def dictInsert {α : Type} (d : List (String × α)) (k : String) (v : α) :
    List (String × α) :=
  match d with
  | [] => [(k, v)]
  | (k0, v0) :: rest =>
    if k0 == k then (k0, v) :: rest else (k0, v0) :: dictInsert rest k v

/-- Python `k in d`. -/
def dictContains {α : Type} (d : List (String × α)) (k : String) : Bool :=
  d.any (fun p => p.1 == k)

/-- Python `d[k]` as an option. -/
def dictFind {α : Type} (d : List (String × α)) (k : String) : Option α :=
  match d with
  | [] => none
  | (k0, v) :: rest => if k0 == k then some v else dictFind rest k

/-- The conversion applied to one `key:value` pair by `parse_state`:
unrecognized keys keep the raw string, recognized keys are coerced and the
coercion may fail (`ValueError`, here `none`). -/
def convertField (key v : String) : Option StateValue :=
  match state_field_converters key with
  | none => some (.strVal v)
  | some .intField => (pyInt v).map .intVal
  | some .floatField => (pyFloat v).map .floatVal

/-- One iteration of the `for field in state.split(';')` loop of
`Tello.parse_state`: fields without a `:` are skipped (`len(split) < 2`),
failed coercions hit `continue`, successes are stored. -/
def parseField (acc : StateDict) (field : String) : StateDict :=
  match splitOnChar ':' field with
  | key :: v :: _ =>
    match convertField key v with
    | some value => dictInsert acc key value
    | none => acc
  | _ => acc

/-- The whole field loop of `Tello.parse_state`. -/
def parseFields (fields : List String) (acc : StateDict) : StateDict :=
  match fields with
  | [] => acc
  | f :: rest => parseFields rest (parseField acc f)

/-- `Tello.parse_state` (tello.py): strip, special-case the literal
`"ok"`, then run the field loop. -/
def parse_state (state : String) : StateDict :=
  if pyStrip state == "ok" then []
  else parseFields (splitOnChar ';' (pyStrip state)) []

/-! ## Datagram payloads and UTF-8 decoding

A raw UDP payload is a list of byte values.  `decodeUtf8` models Python
`bytes.decode("utf-8")` in its default strict mode: it rejects stray or
missing continuation bytes, overlong encodings, surrogate code points and
code points above `0x10FFFF`, exactly the cases where Python raises
`UnicodeDecodeError` (modelled as `none`). -/

abbrev Packet := List Nat

/-- Is `n` a UTF-8 continuation byte (`10xxxxxx`)? -/
def utf8Cont (n : Nat) : Bool := 128 ≤ n && n < 192

/-- Strict UTF-8 decoding of a byte list, model of `bytes.decode("utf-8")`. -/
def decodeUtf8 : List Nat → Option (List Char)
  | [] => some []
  | b :: rest =>
    if b < 128 then
      (decodeUtf8 rest).map (Char.ofNat b :: ·)
    else if b < 192 then none
    else if b < 224 then
      match rest with
      | b1 :: rest1 =>
        if utf8Cont b1 then
          let cp := (b - 192) * 64 + (b1 - 128)
          if cp < 128 then none
          else (decodeUtf8 rest1).map (Char.ofNat cp :: ·)
        else none
      | [] => none
    else if b < 240 then
      match rest with
      | b1 :: b2 :: rest2 =>
        if utf8Cont b1 && utf8Cont b2 then
          let cp := (b - 224) * 4096 + (b1 - 128) * 64 + (b2 - 128)
          if cp < 2048 || (55296 ≤ cp && cp < 57344) then none
          else (decodeUtf8 rest2).map (Char.ofNat cp :: ·)
        else none
      | _ => none
    else if b < 248 then
      match rest with
      | b1 :: b2 :: b3 :: rest3 =>
        if utf8Cont b1 && utf8Cont b2 && utf8Cont b3 then
          let cp := (b - 240) * 262144 + (b1 - 128) * 4096 + (b2 - 128) * 64 + (b3 - 128)
          if cp < 65536 || 1114111 < cp then none
          else (decodeUtf8 rest3).map (Char.ofNat cp :: ·)
        else none
      | _ => none
    else none

/-! ## The device protocol engine (tello.py)

`send_command_with_return` blocks until the mailbox is non-empty or the
timeout elapses.  The asynchronous hub is modelled by giving each attempt
the list of datagrams the hub appends to the mailbox during that
attempt's waiting window; timing fields (`time.time`, `time.sleep`) are
modelled separately for the pacing claim. -/

/-- The warning string returned by `send_command_with_return` on timeout
(tello.py line 352). -/
def timeoutMessage (command : String) (timeout : Nat) : String :=
  "Aborting command \x27" ++ command ++ "\x27. Did not receive a response after "
    ++ toString timeout ++ " seconds"

/-- `Tello.send_command_with_return`, given the mailbox contents visible to
this call (entries already queued plus those the hub delivers before the
timeout expires).  Empty mailbox: the poll loop exhausts the timeout and the
sentinel message is returned.  Otherwise the first entry is popped; a
payload that fails UTF-8 decoding yields the substituted response
`"response decode error"` (the `UnicodeDecodeError` is caught and logged),
a decodable one is returned with trailing CR/LF stripped.
Returns the response string and the remaining mailbox. -/
def send_command_with_return (command : String) (timeout : Nat)
    (mailbox : List Packet) : String × List Packet :=
  match mailbox with
  | [] => (timeoutMessage command timeout, [])
  | p :: rest =>
    match decodeUtf8 p with
    | none => ("response decode error", rest)
    | some cs => (rstripCRLF (String.mk cs), rest)

/-- The exception raised by `Tello.raise_result_error`:
command text, the reported try count `1 + retry_count`, and the last
response string. -/
structure TelloError where
  command : String
  tries : Nat
  response : String
deriving DecidableEq

/-- The result of a `send_control_command` call: either the returned value
or the raised `TelloException`, together with the number of
`send_command_with_return` calls actually made and the final mailbox. -/
structure ControlResult where
  outcome : Except TelloError Bool
  attempts : Nat
  mailbox : List Packet

/-- The `for i in range(0, self.retry_count)` loop of
`Tello.send_control_command`.  `schedule i` is what the hub appends to the
mailbox during attempt `i`; `remaining` counts loop iterations left,
`response` is the loop variable initialized to `"max retries exceeded"`,
and `made` counts the attempts performed so far.  When the loop ends
without an `ok`-bearing response, `raise_result_error` raises with
`tries = 1 + retry_count`. -/
def send_control_command_loop (command : String) (timeout : Nat)
    (schedule : Nat → List Packet) (retry_count : Nat) :
    Nat → Nat → String → List Packet → Nat → ControlResult
  | _, 0, response, mailbox, made =>
    ⟨.error ⟨command, 1 + retry_count, response⟩, made, mailbox⟩
  | i, n + 1, _, mailbox, made =>
    let r := send_command_with_return command timeout (mailbox ++ schedule i)
    if containsOk r.1 then ⟨.ok true, made + 1, r.2⟩
    else send_control_command_loop command timeout schedule retry_count
      (i + 1) n r.1 r.2 (made + 1)

/-- `Tello.send_control_command` (tello.py): run the retry loop starting
from the current mailbox. -/
def send_control_command (command : String) (timeout : Nat)
    (schedule : Nat → List Packet) (retry_count : Nat)
    (mailbox : List Packet) : ControlResult :=
  send_control_command_loop command timeout schedule retry_count
    0 retry_count "max retries exceeded" mailbox 0

/-- A hub schedule that delivers the single datagram `p` during attempt `j`
and nothing during any other attempt. -/
def singleDelivery (j : Nat) (p : Packet) : Nat → List Packet :=
  fun i => if i = j then [p] else []

/-! ## Inter-command pacing (tello.py lines 336-346)

`send_command_with_return` computes `diff = time.time() -
self.last_received_command_timestamp` and, when `diff <
TIME_BTW_COMMANDS`, calls `time.sleep(diff)`.  Timestamps are modelled as
exact rationals. -/

/-- `Tello.TIME_BTW_COMMANDS` (0.1 seconds). -/
def TIME_BTW_COMMANDS : ℚ := 1 / 10

/-- The duration the pacing guard sleeps: `diff` when
`diff < TIME_BTW_COMMANDS`, nothing otherwise. -/
def pacingSleep (last now : ℚ) : ℚ :=
  if now - last < TIME_BTW_COMMANDS then now - last else 0

/-- The instant the command datagram is handed to the hub: the current
time plus whatever the pacing guard slept. -/
def transmissionTime (last now : ℚ) : ℚ :=
  now + pacingSleep last now

/-! ## Device liveness and the swarm orchestrator (swarm.py) -/

/-- The per-device object filled by the receiver callbacks
(`Tello.responses_state_dict`): the response mailbox and the latest
telemetry snapshot. -/
structure TelloUdpState where
  responses : List Packet
  state : StateDict

/-- `Tello.get_current_state` (tello.py): return the telemetry snapshot. -/
def get_current_state (t : TelloUdpState) : StateDict :=
  t.state

/-- Modelled from the spec: `Tello.is_unreachable` is called by
`TelloSwarm._check_reachable_tellos` and `TelloSwarm._try_tello_reconnect`
(swarm.py) but no definition exists in src/djitellopy/tello.py; the spec
describes it as true exactly when the current telemetry snapshot is
empty. -/
def is_unreachable (t : TelloUdpState) : Bool :=
  (get_current_state t).isEmpty

/-- Membership state of a `TelloSwarm`.  Devices are identified by their
id strings.  `originalTellos` is the construction-time list: each worker
thread evaluates `tello = self.connected_tellos[i]` once when it starts
(swarm.py line 100, inside `worker`, before the loop), so worker `i` stays
bound to the `i`-th construction-time device forever. -/
structure SwarmModel where
  originalTellos : List String
  connectedTellos : List String
  unreachableTellos : List String
deriving DecidableEq

/-- The migration performed by `TelloSwarm._check_reachable_tellos` when a
device fails the liveness check: `connected_tellos.remove(tello)` (first
occurrence) and `unreachable_tellos.append(tello)`. -/
def markUnreachable (s : SwarmModel) (t : String) : SwarmModel :=
  { s with
    connectedTellos := s.connectedTellos.erase t
    unreachableTellos := s.unreachableTellos ++ [t] }

/-- The `(i, tello)` pairs `TelloSwarm.sequential` applies the task
function to: `enumerate(self.connected_tellos)` at call time. -/
def sequentialTargets (s : SwarmModel) : List (Nat × String) :=
  s.connectedTellos.enum

/-- The `(i, tello)` pairs `TelloSwarm.parallel` causes the task function
to run on: every worker's queue receives the function, and worker `i`
applies it to the device captured at construction. -/
def parallelTargets (s : SwarmModel) : List (Nat × String) :=
  s.originalTellos.enum

/-! ## Teardown (`Tello.end`, tello.py lines 910-919)

The body of `end` runs `land()` when flying and `streamoff()` when
streaming inside a single `try`, whose `except TelloException: pass`
swallows the error.  `land`/`streamoff` go through `send_control_command`,
whose only raising path is `raise_result_error` raising `TelloException`;
their behaviour is passed in as an `Except TelloError Unit`. -/

/-- The outcome of one `Tello.end` call: which of the two cleanup commands
were attempted, and the exception (if any) escaping to the caller. -/
structure EndRun where
  landAttempted : Bool
  streamoffAttempted : Bool
  raisesToCaller : Option TelloError
deriving DecidableEq

/-- `Tello.end`: the `try` body sequences the two conditional cleanup
calls, so a raising `land()` skips the `streamoff()` statement; the
`except TelloException` clause turns any raised error into `pass`. -/
def end_model (is_flying stream_on : Bool)
    (landResult streamoffResult : Except TelloError Unit) : EndRun :=
  let body : Except TelloError Unit × Bool × Bool :=
    if is_flying then
      match landResult with
      | .error e => (.error e, true, false)
      | .ok _ =>
        if stream_on then (streamoffResult, true, true)
        else (.ok (), true, false)
    else
      if stream_on then (streamoffResult, false, true)
      else (.ok (), false, false)
  match body with
  | (.error _, la, sa) => ⟨la, sa, none⟩
  | (.ok _, la, sa) => ⟨la, sa, none⟩

/-! ## Demultiplexing on the shared control socket
(communication.py `_receive_control_data` + tello.py
`udp_control_receiver`) -/

/-- `Tello.udp_control_receiver`: append the payload to the mailbox only
when the datagram's source IP equals the device's own address. -/
def udp_control_receiver (own_ip : String) (mailbox : List Packet)
    (data : Packet) (src : String) : List Packet :=
  if src == own_ip then mailbox ++ [data] else mailbox

/-- Two devices registered on the shared control socket, with their
addresses and mailboxes. -/
structure TwoDeviceSystem where
  ipA : String
  ipB : String
  mbA : List Packet
  mbB : List Packet
deriving DecidableEq

/-- The `udp_control_handlers` dict after `TelloSwarm.__init__` registered
device A then device B (`add_udp_control_handler(tello.address[0],
tello.udp_control_receiver)`); `false` stands for A's receiver and `true`
for B's. -/
def controlHandlers (s : TwoDeviceSystem) : List (String × Bool) :=
  dictInsert (dictInsert [] s.ipA false) s.ipB true

/-- One iteration of `TelloCommunication._receive_control_data`: look the
source IP up in the handler dict and invoke the registered receiver;
unknown sources are dropped. -/
def receive_control_datagram (s : TwoDeviceSystem) (data : Packet)
    (src : String) : TwoDeviceSystem :=
  match dictFind (controlHandlers s) src with
  | none => s
  | some false => { s with mbA := udp_control_receiver s.ipA s.mbA data src }
  | some true => { s with mbB := udp_control_receiver s.ipB s.mbB data src }

/-- The receive loop applied to a finite arrival sequence of
`(payload, source IP)` datagrams, in socket order. -/
def receive_control_stream (s : TwoDeviceSystem)
    (ds : List (Packet × String)) : TwoDeviceSystem :=
  ds.foldl (fun s d => receive_control_datagram s d.1 d.2) s

/-! ## Derived predicates used to state the claims -/

/-- A `;`-separated field with a key/value split whose recognized numeric
key fails coercion (the `except ValueError: continue` case of
`parse_state`). -/
def malformedNumericField (f : String) : Bool :=
  match splitOnChar ':' f with
  | key :: v :: _ =>
    (state_field_converters key).isSome && (convertField key v).isNone
  | _ => false

/-- A field of a telemetry line that contributes the key `k` to the parsed
snapshot: it has a `:`-split with first part `k` and its conversion
succeeds. -/
def isGoodFieldFor (k f : String) : Bool :=
  match splitOnChar ':' f with
  | key :: v :: _ => key == k && (convertField key v).isSome
  | _ => false

/-- Did an `Except`-modelled call return normally? -/
def exceptOk {ε α : Type} : Except ε α → Bool
  | .ok _ => true
  | .error _ => false

/-! ## Helper lemmas -/

/-- The field loop distributes over list append. -/
theorem parseFields_append (xs ys : List String) (acc : StateDict) :
    parseFields (xs ++ ys) acc = parseFields ys (parseFields xs acc) := by
  induction xs generalizing acc with
  | nil => rfl
  | cons f rest ih => simp [parseFields, ih]

/-- A field whose recognized numeric key fails coercion is skipped by the
loop body (`continue`). -/
theorem parseField_malformed (f : String) (acc : StateDict)
    (h : malformedNumericField f = true) : parseField acc f = acc := by
  unfold malformedNumericField at h
  unfold parseField
  rcases hs : splitOnChar ':' f with _ | ⟨key, _ | ⟨v, rest⟩⟩ <;>
    (rw [hs] at h; try simp_all [Option.isNone_iff_eq_none])

/-- Membership in a dict after a Python-style insert. -/
theorem dictInsert_contains {α : Type} (d : List (String × α)) (k0 k : String)
    (v : α) :
    dictContains (dictInsert d k0 v) k = (k0 == k || dictContains d k) := by
  induction d with
  | nil => simp [dictInsert, dictContains]
  | cons p rest ih =>
    obtain ⟨k1, v1⟩ := p
    by_cases h1 : k1 = k0
    · subst h1
      simp [dictInsert, dictContains]
    · have : (k1 == k0) = false := by simp [h1]
      simp only [dictInsert, dictContains, this, if_neg]
      simp only [dictContains] at ih
      simp [List.any_cons, ih]
      cases hk : (k1 == k) <;> cases hk0 : (k0 == k) <;> simp


/-- Membership in the dict built by one loop iteration of `parse_state`. -/
theorem parseField_contains (acc : StateDict) (f k : String) :
    dictContains (parseField acc f) k
      = (isGoodFieldFor k f || dictContains acc k) := by
  unfold parseField isGoodFieldFor
  rcases hs : splitOnChar ':' f with _ | ⟨key, _ | ⟨v, rest⟩⟩ <;> simp only []
  · simp
  · simp
  · rcases hc : convertField key v with _ | w <;>
      simp [dictInsert_contains, hc]

/-- Membership in the dict built by the whole field loop of `parse_state`. -/
theorem parseFields_contains (fields : List String) (acc : StateDict)
    (k : String) :
    dictContains (parseFields fields acc) k
      = (fields.any (isGoodFieldFor k) || dictContains acc k) := by
  induction fields generalizing acc with
  | nil => simp [parseFields]
  | cons f rest ih =>
    simp only [parseFields, ih, parseField_contains, List.any_cons]
    cases isGoodFieldFor k f <;> simp

/-- Unfolding step for the retry loop with a single scheduled delivery:
attempts before the delivery attempt time out, the delivery attempt pops
the `ok` reply and succeeds. -/
theorem send_control_command_loop_single (command : String)
    (timeout retry_count : Nat) (p : Packet) (cs : List Char)
    (hdec : decodeUtf8 p = some cs)
    (hok : containsOk (rstripCRLF (String.mk cs)) = true)
    (htm : containsOk (timeoutMessage command timeout) = false) :
    ∀ (j i made rem : Nat) (resp : String) (m : Nat), m = i + j → j < rem →
    send_control_command_loop command timeout (singleDelivery m p)
        retry_count i rem resp [] made
      = ⟨.ok true, made + (j + 1), []⟩ := by
  intro j
  induction j with
  | zero =>
    intro i made rem resp m hm hlt
    match rem, hlt with
    | r + 1, _ =>
      have hone : singleDelivery m p i = [p] := by
        simp [singleDelivery, hm]
      simp [send_control_command_loop, hone, send_command_with_return,
        hdec, hok]
  | succ j ih =>
    intro i made rem resp m hm hlt
    match rem, hlt with
    | r + 1, hlt =>
      have hnone : singleDelivery m p i = [] := by
        simp only [singleDelivery]
        rw [if_neg]
        omega
      rw [send_control_command_loop]
      simp only [hnone, List.append_nil, send_command_with_return, htm,
        Bool.false_eq_true, if_false]
      rw [ih (i + 1) (made + 1) r (timeoutMessage command timeout) m
        (by omega) (by omega)]
      congr 1
      omega

/-- One datagram step of the two-device control demultiplexer: with
distinct registered IPs, the datagram is appended to exactly the mailbox
of the device whose address equals the source IP, and the registrations
are unchanged. -/
theorem receive_control_datagram_spec (s : TwoDeviceSystem)
    (h : s.ipA ≠ s.ipB) (data : Packet) (src : String) :
    (receive_control_datagram s data src).mbA
        = (if src = s.ipA then s.mbA ++ [data] else s.mbA) ∧
    (receive_control_datagram s data src).mbB
        = (if src = s.ipB then s.mbB ++ [data] else s.mbB) ∧
    (receive_control_datagram s data src).ipA = s.ipA ∧
    (receive_control_datagram s data src).ipB = s.ipB := by
  have hAB : (s.ipA == s.ipB) = false := by simp [h]
  by_cases h1 : src = s.ipA
  · subst h1
    simp [receive_control_datagram, controlHandlers, dictInsert, dictFind,
      hAB, udp_control_receiver, h, Ne.symm h]
  · by_cases h2 : src = s.ipB
    · subst h2
      simp [receive_control_datagram, controlHandlers, dictInsert, dictFind,
        hAB, udp_control_receiver, h1, Ne.symm h]
    · have e1 : (s.ipA == src) = false := by
        simp only [beq_eq_false_iff_ne]; exact fun hc => h1 hc.symm
      have e2 : (s.ipB == src) = false := by
        simp only [beq_eq_false_iff_ne]; exact fun hc => h2 hc.symm
      simp [receive_control_datagram, controlHandlers, dictInsert, dictFind,
        hAB, udp_control_receiver, h1, h2, e1, e2]

/-! ## Claim C1 -/

/-- Claim C1 (evaluation at the failing input): with the default retry
budget 3 and a hub that never delivers a reply (every attempt returns the
timeout sentinel), `send_control_command` performs exactly 3 calls to
`send_command_with_return` — `retryCount`, not `retryCount + 1` — and then
raises a `TelloException` whose message nevertheless reports `1 + 3 = 4`
tries, so the raised error does not carry the actual attempt count. -/
theorem C1_retry_budget_eval :
    (send_control_command "command" 7 (fun _ => []) 3 []).attempts = 3 ∧
    (send_control_command "command" 7 (fun _ => []) 3 []).outcome
      = .error ⟨"command", 1 + 3, timeoutMessage "command" 7⟩ ∧
    (3 : Nat) ≠ 3 + 1 :=
  ⟨rfl, rfl, by decide⟩

/-! ## Claim C2 -/

/-- Claim C2: the device liveness check `is_unreachable` returns true
exactly when the device's current telemetry snapshot
(`get_current_state`) is the empty mapping.  (`is_unreachable` is
modelled from the spec; see its doc string.) -/
theorem C2_is_unreachable_iff_empty (t : TelloUdpState) :
    is_unreachable t = true ↔ get_current_state t = [] := by
  unfold is_unreachable
  exact List.isEmpty_iff

/-- Witness for C2 at a concrete device state with an empty snapshot. -/
theorem C2_is_unreachable_iff_empty_witness :
    is_unreachable ⟨[], []⟩ = true ↔ get_current_state ⟨[], []⟩ = [] :=
  C2_is_unreachable_iff_empty ⟨[], []⟩

/-! ## Claim C3 -/

/-- Claim C3 (evaluation at the failing input): with the previous command
completed at time 0 and the next call entering at time 1/100, the pacing
guard sleeps `diff = 1/100` (not `TIME_BTW_COMMANDS - diff`), so the
second transmission happens `1/50` seconds after the previous completion,
strictly less than the required `TIME_BTW_COMMANDS = 1/10` spacing. -/
theorem C3_pacing_gap_eval :
    transmissionTime 0 (1 / 100) - 0 = 1 / 50 ∧
    (1 / 50 : ℚ) < TIME_BTW_COMMANDS := by
  constructor
  · norm_num [transmissionTime, pacingSleep, TIME_BTW_COMMANDS]
  · norm_num [TIME_BTW_COMMANDS]

/-! ## Claim C4 -/

/-- Claim C4 (counterexample to the claim as stated): with retry budget
`retryCount = 1`, the hub delivers a decodable reply reading `ok` during
the window of attempt index 1 — i.e. within `retryCount + 1 = 2` attempts
— yet `send_control_command` does not return success: it makes only one
attempt and raises. -/
theorem C4_retryCount_plus_one_counterexample :
    (send_control_command "command" 7 (singleDelivery 1 [111, 107]) 1
        []).outcome
      = .error ⟨"command", 2, timeoutMessage "command" 7⟩ ∧
    (send_control_command "command" 7 (singleDelivery 1 [111, 107]) 1
        []).attempts = 1 ∧
    decodeUtf8 [111, 107] = some ['o', 'k'] ∧
    containsOk (rstripCRLF (String.mk ['o', 'k'])) = true :=
  ⟨rfl, rfl, rfl, by decide⟩

/-- Claim C4 (amended): if the hub delivers a single reply whose decoded,
CR/LF-stripped text case-insensitively contains `ok` during the window of
attempt `j` with `j < retryCount` (within `retryCount` attempts, not
`retryCount + 1`), and the mailbox starts empty, then
`send_control_command` returns success (`True`) after `j + 1` attempts and
the mailbox is empty afterwards.  The timeout sentinel for the command
must not itself contain `ok` (true of every SDK command name). -/
theorem C4_ok_reply_success (command : String)
    (timeout retry_count j : Nat) (p : Packet) (cs : List Char)
    (hj : j < retry_count)
    (hdec : decodeUtf8 p = some cs)
    (hok : containsOk (rstripCRLF (String.mk cs)) = true)
    (htm : containsOk (timeoutMessage command timeout) = false) :
    send_control_command command timeout (singleDelivery j p) retry_count []
      = ⟨.ok true, j + 1, []⟩ := by
  unfold send_control_command
  rw [send_control_command_loop_single command timeout retry_count p cs
    hdec hok htm j 0 0 retry_count "max retries exceeded" j (by omega) hj]
  congr 1
  omega

/-- Witness for C4: the reply `b"ok"` delivered during the first attempt
with retry budget 1. -/
theorem C4_ok_reply_success_witness :
    send_control_command "command" 7 (singleDelivery 0 [111, 107]) 1 []
      = ⟨.ok true, 0 + 1, []⟩ :=
  C4_ok_reply_success "command" 7 1 0 [111, 107] ['o', 'k']
    (by decide) (by decide) (by decide) (by decide)

/-! ## Claim C5 -/

/-- Claim C5 (counterexample to the claim as stated): in a two-device
swarm where the health monitor moved device `"B"` from the connected set
to the unreachable set, `parallel` still runs the task function on `"B"`
(worker 1 is permanently bound to the construction-time device list), even
though `"B"` is no longer in the connected set. -/
theorem C5_parallel_includes_unreachable_counterexample :
    (markUnreachable ⟨["A", "B"], ["A", "B"], []⟩ "B").connectedTellos
      = ["A"] ∧
    (markUnreachable ⟨["A", "B"], ["A", "B"], []⟩ "B").unreachableTellos
      = ["B"] ∧
    (1, "B") ∈ parallelTargets (markUnreachable ⟨["A", "B"], ["A", "B"], []⟩ "B") ∧
    "B" ∉ (markUnreachable ⟨["A", "B"], ["A", "B"], []⟩ "B").connectedTellos := by
  refine ⟨by decide, by decide, ?_, ?_⟩ <;> decide

/-- Claim C5 (amended): after the health monitor moves a device out of the
connected list, `sequential` no longer runs the task on it (it iterates
the current connected list), but `parallel` still runs the task on every
originally registered device — including the one moved to the unreachable
set — because each worker thread captured its device when the swarm was
constructed. -/
theorem C5_sequential_excludes_parallel_does_not (s : SwarmModel)
    (t : String) (hnd : s.connectedTellos.Nodup) :
    t ∉ (sequentialTargets (markUnreachable s t)).map Prod.snd ∧
    (t ∈ s.originalTellos →
      t ∈ (parallelTargets (markUnreachable s t)).map Prod.snd) := by
  constructor
  · simp only [sequentialTargets, markUnreachable, List.enum_map_snd]
    exact hnd.not_mem_erase
  · intro hmem
    simpa [parallelTargets, markUnreachable, List.enum_map_snd] using hmem

/-- Witness for C5 (amended claim) at a concrete two-device swarm. -/
theorem C5_sequential_excludes_parallel_does_not_witness :
    "B" ∉ (sequentialTargets
        (markUnreachable ⟨["A", "B"], ["A", "B"], []⟩ "B")).map Prod.snd ∧
    ("B" ∈ (⟨["A", "B"], ["A", "B"], []⟩ : SwarmModel).originalTellos →
      "B" ∈ (parallelTargets
        (markUnreachable ⟨["A", "B"], ["A", "B"], []⟩ "B")).map Prod.snd) :=
  C5_sequential_excludes_parallel_does_not ⟨["A", "B"], ["A", "B"], []⟩ "B"
    (by decide)

/-! ## Claim C6 -/

/-- Claim C6: `parse_state` maps the literal line
`"pitch:10;roll:-3;bat:88;"` to exactly the mapping
`{pitch ↦ 10, roll ↦ -3, bat ↦ 88}` with integer-typed values, maps the
literal `"ok"` to the empty mapping, and a field whose recognized numeric
key has a malformed value is skipped by the field loop exactly as if it
were absent, so all remaining fields still appear. -/
theorem C6_parse_state_literals (pre post : List String) (acc : StateDict)
    (f : String) (h : malformedNumericField f = true) :
    parse_state "pitch:10;roll:-3;bat:88;"
      = [("pitch", .intVal 10), ("roll", .intVal (-3)), ("bat", .intVal 88)] ∧
    parse_state "ok" = [] ∧
    parseFields (pre ++ f :: post) acc = parseFields (pre ++ post) acc := by
  refine ⟨by decide, by decide, ?_⟩
  rw [parseFields_append, parseFields_append]
  simp only [parseFields]
  rw [parseField_malformed f _ h]

/-- Witness for C6: the malformed field `"bat:x4"` between two well-formed
fields is dropped and only that field. -/
theorem C6_parse_state_literals_witness :
    parse_state "pitch:10;roll:-3;bat:88;"
      = [("pitch", .intVal 10), ("roll", .intVal (-3)), ("bat", .intVal 88)] ∧
    parse_state "ok" = [] ∧
    parseFields (["pitch:10"] ++ "bat:x4" :: ["roll:-3"]) []
      = parseFields (["pitch:10"] ++ ["roll:-3"]) [] :=
  C6_parse_state_literals ["pitch:10"] ["roll:-3"] [] "bat:x4" (by decide)

/-! ## Claim C7 -/

/-- Claim C7 (counterexample to the claim as stated): a mailbox entry that
fails UTF-8 decoding (the single byte 0xFF) makes
`send_command_with_return` return the fixed string
`"response decode error"`, which is not the empty string the claim
promises. -/
theorem C7_decode_error_counterexample :
    send_command_with_return "command" 7 [[255]]
      = ("response decode error", []) ∧
    decodeUtf8 [255] = none ∧
    ("response decode error" : String) ≠ "" :=
  ⟨rfl, rfl, by decide⟩

/-- Claim C7 (amended): for every mailbox entry that cannot be decoded as
UTF-8 text, `send_command_with_return` does not raise: it logs the
`UnicodeDecodeError` and returns the fixed substituted response
`"response decode error"` (not the empty string), the entry is consumed,
and the call otherwise proceeds. -/
theorem C7_decode_error_recovered (command : String) (timeout : Nat)
    (p : Packet) (rest : List Packet) (h : decodeUtf8 p = none) :
    send_command_with_return command timeout (p :: rest)
      = ("response decode error", rest) := by
  simp [send_command_with_return, h]

/-- Witness for C7 at the undecodable payload `[255]` with a nonempty
remaining mailbox. -/
theorem C7_decode_error_recovered_witness :
    send_command_with_return "command" 7 ([255] :: [[111, 107]])
      = ("response decode error", [[111, 107]]) :=
  C7_decode_error_recovered "command" 7 [255] [[111, 107]] (by decide)

/-! ## Claim C8 -/

/-- Claim C8 (counterexample to the claim as stated): when the device is
both flying and streaming and the land attempt raises, `end` never
attempts to stop streaming — the raising `land()` jumps straight to the
`except` clause, skipping the `streamoff()` statement. -/
theorem C8_streamoff_skipped_counterexample :
    (end_model true true (.error ⟨"land", 4, "error"⟩) (.ok ())).streamoffAttempted
      = false ∧
    (end_model true true (.error ⟨"land", 4, "error"⟩) (.ok ())).landAttempted
      = true ∧
    (end_model true true (.error ⟨"land", 4, "error"⟩) (.ok ())).raisesToCaller
      = none :=
  ⟨rfl, rfl, rfl⟩

/-- Claim C8 (amended): for every combination of the flying and streaming
flags and every behaviour of the two underlying commands, teardown
(`end`) never raises to the caller; it attempts to land exactly when
flying, and attempts to stop streaming exactly when streaming *and* the
land attempt (if any) did not raise — a raising `land()` skips the
`streamoff()` attempt, as both sit in the same `try` block. -/
theorem C8_teardown_never_raises (is_flying stream_on : Bool)
    (landResult streamoffResult : Except TelloError Unit) :
    (end_model is_flying stream_on landResult streamoffResult).raisesToCaller
      = none ∧
    (end_model is_flying stream_on landResult streamoffResult).landAttempted
      = is_flying ∧
    (end_model is_flying stream_on landResult streamoffResult).streamoffAttempted
      = (stream_on && (!is_flying || exceptOk landResult)) := by
  cases is_flying <;> cases stream_on <;> cases landResult <;>
    cases streamoffResult <;> simp [end_model, exceptOk]

/-- Witness for C8 at a concrete state: flying and streaming, with a
raising land attempt. -/
theorem C8_teardown_never_raises_witness :
    (end_model true true (.error ⟨"land", 4, "err"⟩) (.ok ())).raisesToCaller
      = none ∧
    (end_model true true (.error ⟨"land", 4, "err"⟩) (.ok ())).landAttempted
      = true ∧
    (end_model true true (.error ⟨"land", 4, "err"⟩) (.ok ())).streamoffAttempted
      = (true && (!true ||
          exceptOk (Except.error ⟨"land", 4, "err"⟩ : Except TelloError Unit))) :=
  C8_teardown_never_raises true true (.error ⟨"land", 4, "err"⟩) (.ok ())

/-! ## Claim C9 -/

/-- Claim C9: for every arrival sequence on the shared control socket and
two devices registered with distinct source IPs, each device's mailbox
ends up with exactly the payloads of the datagrams whose source IP equals
that device's address, appended in arrival order — no datagram ever lands
in the other device's mailbox. -/
theorem C9_demux_exact (s : TwoDeviceSystem) (h : s.ipA ≠ s.ipB)
    (ds : List (Packet × String)) :
    (receive_control_stream s ds).mbA
      = s.mbA ++ (ds.filter (fun d => d.2 == s.ipA)).map Prod.fst ∧
    (receive_control_stream s ds).mbB
      = s.mbB ++ (ds.filter (fun d => d.2 == s.ipB)).map Prod.fst := by
  induction ds generalizing s with
  | nil => simp [receive_control_stream]
  | cons d ds ih =>
    obtain ⟨data, src⟩ := d
    obtain ⟨hA, hB, hiA, hiB⟩ := receive_control_datagram_spec s h data src
    have hne : (receive_control_datagram s data src).ipA
        ≠ (receive_control_datagram s data src).ipB := by
      rw [hiA, hiB]; exact h
    have hrec := ih (receive_control_datagram s data src) hne
    simp only [receive_control_stream, List.foldl_cons] at hrec ⊢
    rw [hrec.1, hrec.2, hA, hB, hiA, hiB]
    constructor
    · by_cases h1 : src = s.ipA <;>
        simp [h1, List.filter_cons]
    · by_cases h2 : src = s.ipB <;>
        simp [h2, List.filter_cons]

/-- Witness for C9: two devices `"a1"`, `"b2"` and a four-datagram arrival
sequence, one datagram from an unregistered source. -/
theorem C9_demux_exact_witness :
    (receive_control_stream ⟨"a1", "b2", [], []⟩
        [([1], "a1"), ([2], "b2"), ([3], "a1"), ([4], "zz")]).mbA
      = [] ++ ([([1], "a1"), ([2], "b2"), ([3], "a1"), ([4], "zz")].filter
          (fun d => d.2 == "a1")).map Prod.fst ∧
    (receive_control_stream ⟨"a1", "b2", [], []⟩
        [([1], "a1"), ([2], "b2"), ([3], "a1"), ([4], "zz")]).mbB
      = [] ++ ([([1], "a1"), ([2], "b2"), ([3], "a1"), ([4], "zz")].filter
          (fun d => d.2 == "b2")).map Prod.fst :=
  C9_demux_exact ⟨"a1", "b2", [], []⟩ (by decide)
    [([1], "a1"), ([2], "b2"), ([3], "a1"), ([4], "zz")]

/-! ## Claim C10 -/

/-- Claim C10: `parse_state` is total — it is a function returning a
mapping on every input string — and a key appears in the returned snapshot
exactly when some `;`-field of the stripped input has that key before a
`:` separator and its value conversion succeeds: fields with no `:` are
skipped, recognized keys whose values fail numeric coercion are omitted,
and every other field (including unrecognized keys, which `convertField`
retains as raw strings) is kept, as the concrete `"mpry"` instance
shows. -/
theorem C10_parse_state_total :
    (∀ s k : String, dictContains (parse_state s) k
        = (splitOnChar ';' (pyStrip s)).any (isGoodFieldFor k)) ∧
    parse_state "mpry:0,0,0" = [("mpry", StateValue.strVal "0,0,0")] := by
  refine ⟨?_, by decide⟩
  intro s k
  unfold parse_state
  by_cases h : pyStrip s = "ok"
  · have h2 : ∀ k0 : String, isGoodFieldFor k0 "ok" = false := by
      intro k0
      unfold isGoodFieldFor
      rw [show splitOnChar ':' "ok" = ["ok"] from rfl]
  -- the singleton match falls through to the catch-all branch
    simp [h, dictContains, show splitOnChar ';' "ok" = ["ok"] from rfl, h2]
  · have hb : (pyStrip s == "ok") = false := by simp [h]
    rw [if_neg (by simp [h]), parseFields_contains]
    simp [dictContains]

/-- Witness for C10 at a concrete input line. -/
theorem C10_parse_state_total_witness :
    dictContains (parse_state "pitch:10;junk;bat:x4") "pitch"
      = (splitOnChar ';' (pyStrip "pitch:10;junk;bat:x4")).any
          (isGoodFieldFor "pitch") ∧
    parse_state "mpry:0,0,0" = [("mpry", StateValue.strVal "0,0,0")] :=
  ⟨C10_parse_state_total.1 "pitch:10;junk;bat:x4" "pitch",
   C10_parse_state_total.2⟩

end DJITello
